import Mathlib

/-!
# Verification of `proc`: target resolution and the stuck/unstick recovery engine

A shallow embedding of the core of the `proc` CLI (Rust) in Lean 4:

* `src/core/target.rs` — `parse_target`, `parse_targets`, `resolve_target`,
  `resolve_target_single`, `resolve_port`, `resolve_pid`, `resolve_targets`,
  `find_ports_for_pid`;
* `src/core/port.rs` — `parse_port`, `PortInfo::find_by_port`;
* `src/core/process.rs` — `Process`, `Process::find_by_pid`,
  `Process::find_by_name`, `Process::find_stuck`;
* `src/commands/unstick.rs` — `UnstickCommand::is_stuck`,
  `UnstickCommand::check_recovered`, `UnstickCommand::attempt_unstick`.

The OS process table and the listening-socket table are external collaborators
(`sysinfo`, `lsof`/`ss`): they are modelled as explicit snapshot parameters
(`List Process`, `List PortInfo`), and each fresh OS observation performed by
the recovery engine (signal-send results, `is_running` re-checks,
`check_recovered` lookups) is a field of an explicit observation script
(`RecoveryEnv`), consumed at the same program points as in the source.
Strings are modelled as `List Char`; Rust `f32`/`f64` CPU and memory values are
modelled as `Rat` (only order comparisons against integer literals occur).
-/

namespace Proc

/-- Rust `str::trim`: drop whitespace from both ends. -/
def trimStr (s : List Char) : List Char :=
  ((s.dropWhile Char.isWhitespace).reverse.dropWhile Char.isWhitespace).reverse

/-- Numeric value of a list of decimal digits, most significant first
(the accumulator loop inside Rust's integer `FromStr`). -/
def digitsVal (s : List Char) : Nat :=
  s.foldl (fun a c => a * 10 + (c.toNat - 48)) 0

/-- The sign handling of Rust's integer `FromStr`: an unsigned parse accepts
and strips one optional leading `+`. -/
def stripPlus (s : List Char) : List Char :=
  match s with
  | c :: rest => if c = '+' then rest else c :: rest
  | [] => []

/-- Rust `str::parse::<uN>()`: an optional leading `+`, then one or more ASCII
digits, and the value must fit below the bound (`2^16` or `2^32` here);
anything else is a parse error (`none`). -/
def parseUnsigned (bound : Nat) (s : List Char) : Option Nat :=
  let digits := stripPlus s
  if digits.isEmpty then none
  else if digits.all Char.isDigit then
    if digitsVal digits ≤ bound then some (digitsVal digits) else none
  else none

/-- `u16::MAX`. -/
def u16Max : Nat := 65535

/-- `u32::MAX`. -/
def u32Max : Nat := 4294967295

/-- `parse_port` (src/core/port.rs): trim, strip every leading `:`
(`trim_start_matches`), then parse as `u16`. -/
def parse_port (input : List Char) : Option Nat :=
  let cleaned := (trimStr input).dropWhile (· = ':')
  parseUnsigned u16Max cleaned

/-- `TargetType` (src/core/target.rs). -/
inductive TargetType where
  | Port (port : Nat)
  | Pid (pid : Nat)
  | Name (name : List Char)
deriving DecidableEq, Repr

/-- `parse_target` (src/core/target.rs): trim; if the string starts with `:`
try `parse_port` (on failure control falls through); then try `u32`; otherwise
the trimmed string is a name. -/
def parse_target (target : List Char) : TargetType :=
  let t := trimStr target
  match (if t.head? = some ':' then parse_port t else none) with
  | some port => TargetType.Port port
  | none =>
    match parseUnsigned u32Max t with
    | some pid => TargetType.Pid pid
    | none => TargetType.Name t

/-- `parse_targets` (src/core/target.rs): split on `,`, trim each piece, drop
empty pieces. -/
def parse_targets (s : List Char) : List (List Char) :=
  ((s.splitOn ',').map trimStr).filter (fun p => ¬ p.isEmpty)

/-- `ProcessStatus` (src/core/process.rs). -/
inductive ProcessStatus where
  | Running | Sleeping | Stopped | Zombie | Dead | Unknown
deriving DecidableEq, Repr

/-- `Process` (src/core/process.rs): one snapshot record of the process table. -/
structure Process where
  pid : Nat
  name : List Char
  exe_path : Option (List Char) := none
  cwd : Option (List Char) := none
  command : Option (List Char) := none
  cpu_percent : Rat
  memory_mb : Rat := 0
  status : ProcessStatus := ProcessStatus.Running
  user : Option (List Char) := none
  parent_pid : Option Nat := none
  start_time : Option Nat := none
deriving DecidableEq, Repr

/-- `Protocol` (src/core/port.rs). -/
inductive Protocol where
  | Tcp | Udp
deriving DecidableEq, Repr

/-- `PortInfo` (src/core/port.rs): one listening-socket record. -/
structure PortInfo where
  port : Nat
  protocol : Protocol := Protocol.Tcp
  pid : Nat
  process_name : List Char := []
  address : Option (List Char) := none
deriving DecidableEq, Repr

/-- `ProcError` (src/error.rs). -/
inductive ProcError where
  | ProcessNotFound (target : List Char)
  | PortNotFound (port : Nat)
  | PermissionDenied (pid : Nat)
  | InvalidInput (msg : List Char)
  | SystemError (msg : List Char)
  | Timeout (msg : List Char)
  | ParseError (msg : List Char)
  | NotSupported (msg : List Char)
  | ProcessGone (pid : Nat)
  | SignalError (msg : List Char)
deriving DecidableEq, Repr

/-- Decimal rendering of a number (Rust `u32::to_string` in error messages). -/
def natChars (n : Nat) : List Char := (Nat.repr n).data

/-- Rust `str::to_lowercase`, character by character. -/
def lowerStr (s : List Char) : List Char := s.map Char.toLower

/-- Rust `str::contains(&str)`: substring containment. -/
def containsStr (hay needle : List Char) : Bool :=
  match hay with
  | [] => needle.isEmpty
  | _ :: t => needle.isPrefixOf hay || containsStr t needle

/-- The command line joined with spaces, as `find_by_name` builds it
(`proc.cmd().join(" ")`; an absent command line joins to the empty string). -/
def cmdString (p : Process) : List Char := p.command.getD []

/-- `Process::find_by_name` (src/core/process.rs): case-insensitive substring
match against process name or joined command line over the whole snapshot;
an empty match set is `ProcessNotFound`. -/
def find_by_name (procs : List Process) (pattern : List Char) :
    Except ProcError (List Process) :=
  let patternLower := lowerStr pattern
  let matches_ := procs.filter fun p =>
    containsStr (lowerStr p.name) patternLower ||
    containsStr (lowerStr (cmdString p)) patternLower
  if matches_.isEmpty then Except.error (ProcError.ProcessNotFound pattern)
  else Except.ok matches_

/-- `Process::find_by_pid` (src/core/process.rs): keyed lookup in the process
table (the `sysinfo` process map is keyed by pid). -/
def find_by_pid (procs : List Process) (pid : Nat) : Option Process :=
  procs.find? (fun p => p.pid = pid)

/-- `PortInfo::find_by_port` (src/core/port.rs): first socket with the port in
the listening-socket snapshot. -/
def find_by_port (ports : List PortInfo) (port : Nat) : Option PortInfo :=
  ports.find? (fun p => p.port = port)

/-- `resolve_port` (src/core/target.rs): socket absent ⇒ `PortNotFound`; socket
present but owning pid absent from the process snapshot ⇒ `ProcessGone`. -/
def resolve_port (ports : List PortInfo) (procs : List Process) (port : Nat) :
    Except ProcError (List Process) :=
  match find_by_port ports port with
  | some portInfo =>
    match find_by_pid procs portInfo.pid with
    | some proc => Except.ok [proc]
    | none => Except.error (ProcError.ProcessGone portInfo.pid)
  | none => Except.error (ProcError.PortNotFound port)

/-- `resolve_pid` (src/core/target.rs). -/
def resolve_pid (procs : List Process) (pid : Nat) :
    Except ProcError (List Process) :=
  match find_by_pid procs pid with
  | some proc => Except.ok [proc]
  | none => Except.error (ProcError.ProcessNotFound (natChars pid))

/-- `resolve_target` (src/core/target.rs): dispatch on `parse_target`. -/
def resolve_target (ports : List PortInfo) (procs : List Process)
    (target : List Char) : Except ProcError (List Process) :=
  match parse_target target with
  | TargetType.Port port => resolve_port ports procs port
  | TargetType.Pid pid => resolve_pid procs pid
  | TargetType.Name name => find_by_name procs name

/-- The `InvalidInput` message `resolve_target_single` formats when a target is
ambiguous. -/
def tooManyMsg (target : List Char) (n : Nat) : List Char :=
  "Target '".data ++ target ++ "' matches ".data ++ natChars n ++
    " processes. Be more specific.".data

/-- `resolve_target_single` (src/core/target.rs): like `resolve_target`, but an
empty result is `ProcessNotFound` and more than one match is `InvalidInput`. -/
def resolve_target_single (ports : List PortInfo) (procs : List Process)
    (target : List Char) : Except ProcError Process := do
  let processes ← resolve_target ports procs target
  match processes with
  | [] => Except.error (ProcError.ProcessNotFound target)
  | [p] => Except.ok p
  | _ :: _ :: _ =>
    Except.error (ProcError.InvalidInput (tooManyMsg target processes.length))

/-- `find_ports_for_pid` (src/core/target.rs): filter the full socket snapshot
by pid. -/
def find_ports_for_pid (ports : List PortInfo) (pid : Nat) : List PortInfo :=
  ports.filter (fun p => p.pid = pid)

/-- The inner `for proc in processes` loop of `resolve_targets`
(src/core/target.rs): `seen_pids.insert(proc.pid)` guards each push onto
`all_processes`. -/
def insertNew : List Process → List Process → List Nat →
    List Process × List Nat
  | [], found, seen => (found, seen)
  | p :: ps, found, seen =>
    if p.pid ∈ seen then insertNew ps found seen
    else insertNew ps (found ++ [p]) (seen ++ [p.pid])

/-- The outer `for target in targets` loop of `resolve_targets`
(src/core/target.rs): on success insert the resolved processes not yet seen by
pid; on failure record the target string. -/
def resolveLoop (ports : List PortInfo) (procs : List Process) :
    List (List Char) → List Process → List Nat → List (List Char) →
    List Process × List (List Char)
  | [], found, _, notFound => (found, notFound)
  | t :: ts, found, seen, notFound =>
    match resolve_target ports procs t with
    | Except.ok ps =>
      let fs := insertNew ps found seen
      resolveLoop ports procs ts fs.1 fs.2 notFound
    | Except.error _ => resolveLoop ports procs ts found seen (notFound ++ [t])

/-- Whether `resolve_target` fails on a target string (the `Err` arm of the
match inside `resolve_targets`). -/
def resolveFails (ports : List PortInfo) (procs : List Process)
    (t : List Char) : Bool :=
  match resolve_target ports procs t with
  | Except.ok _ => false
  | Except.error _ => true

/-- `resolve_targets` (src/core/target.rs): resolve each target independently,
deduplicate the successes by pid, collect the failed target strings. -/
def resolve_targets (ports : List PortInfo) (procs : List Process)
    (targets : List (List Char)) : List Process × List (List Char) :=
  resolveLoop ports procs targets [] [] []

/-- One `sysinfo` process entry as seen by `find_stuck`'s second sample:
the snapshot record plus the `run_time()` reading (seconds). -/
structure SysSample where
  run_time : Nat
  record : Process
deriving DecidableEq, Repr

/-- `Process::find_stuck` (src/core/process.rs): after the 0.5 s settle and
refresh, keep the processes of the second sample with `run_time > timeout`
seconds and CPU above 50. -/
def find_stuck (timeout_secs : Nat) (sample2 : List SysSample) : List Process :=
  (sample2.filter fun s =>
    timeout_secs < s.run_time && (50 : Rat) < s.record.cpu_percent).map
    (·.record)

/-- `Outcome` (src/commands/unstick.rs). -/
inductive Outcome where
  | Recovered
  | Terminated
  | StillStuck
  | NotStuck
  | Failed (msg : List Char)
deriving DecidableEq, Repr

/-- The Unix signals the recovery engine sends, in escalation order. -/
inductive Sig where
  | SIGCONT | SIGINT | SIGTERM | SIGKILL
deriving DecidableEq, Repr

/-- The scripted sequence of fresh OS observations one run of
`attempt_unstick` consumes, one field per call site, in program order.
`contLookup`/`intLookup` are the `Process::find_by_pid` results inside the two
`check_recovered` calls (`none` when the pid is gone, otherwise the freshly
sampled CPU percentage); the `running…` fields are the fresh
`Process::is_running` existence checks at the corresponding program points. -/
structure RecoveryEnv where
  contLookup : Option Rat
  sigintOk : Bool
  runningAfterSigintErr : Bool
  runningAfterWait3 : Bool
  intLookup : Option Rat
  termOk : Bool
  runningAfterTermErr : Bool
  runningAfterWait5 : Bool
  killOk : Bool
  killErrMsg : List Char
  runningAfterKillErr : Bool
deriving DecidableEq, Repr

/-- `UnstickCommand::is_stuck` (src/commands/unstick.rs): CPU above 50. -/
def is_stuck (p : Process) : Bool := (50 : Rat) < p.cpu_percent

/-- `UnstickCommand::check_recovered` (src/commands/unstick.rs): fresh
`find_by_pid` lookup; recovered iff the process is found with CPU below 10.
A vanished process is never recovered. -/
def check_recovered (lookup : Option Rat) : Bool :=
  match lookup with
  | some cpu => cpu < (10 : Rat)
  | none => false

/-- `UnstickCommand::attempt_unstick` (src/commands/unstick.rs, Unix build):
the graduated recovery state machine run to its terminal outcome on one
process, consuming the observation script `env`. `targeted` is
`self.target.is_some()` (explicit target vs auto-discovery), `force` is the
`--force` flag. Returns the terminal outcome together with the trace of
signal operations attempted, in order. -/
def attempt_unstick (targeted force : Bool) (proc : Process)
    (env : RecoveryEnv) : Outcome × List Sig :=
  if targeted ∧ ¬ is_stuck proc then (Outcome.NotStuck, [])
  else
    -- Step 1: SIGCONT, result ignored; wait 1 s; fresh recovery check.
    if check_recovered env.contLookup then (Outcome.Recovered, [Sig.SIGCONT])
    else
      -- Step 2: SIGINT; on a failed send, a fresh existence check.
      if ¬ env.sigintOk ∧ ¬ env.runningAfterSigintErr then
        (Outcome.Terminated, [Sig.SIGCONT, Sig.SIGINT])
      else
        -- wait 3 s, then fresh existence and recovery checks
        if ¬ env.runningAfterWait3 then
          (Outcome.Terminated, [Sig.SIGCONT, Sig.SIGINT])
        else if check_recovered env.intLookup then
          (Outcome.Recovered, [Sig.SIGCONT, Sig.SIGINT])
        else if ¬ force then (Outcome.StillStuck, [Sig.SIGCONT, Sig.SIGINT])
        else
          -- Step 3 (force only): SIGTERM via Process::terminate.
          if ¬ env.termOk ∧ ¬ env.runningAfterTermErr then
            (Outcome.Terminated, [Sig.SIGCONT, Sig.SIGINT, Sig.SIGTERM])
          else if ¬ env.runningAfterWait5 then
            (Outcome.Terminated, [Sig.SIGCONT, Sig.SIGINT, Sig.SIGTERM])
          else
            -- Step 4 (force only): SIGKILL via Process::kill.
            if env.killOk then
              (Outcome.Terminated,
                [Sig.SIGCONT, Sig.SIGINT, Sig.SIGTERM, Sig.SIGKILL])
            else if ¬ env.runningAfterKillErr then
              (Outcome.Terminated,
                [Sig.SIGCONT, Sig.SIGINT, Sig.SIGTERM, Sig.SIGKILL])
            else
              (Outcome.Failed env.killErrMsg,
                [Sig.SIGCONT, Sig.SIGINT, Sig.SIGTERM, Sig.SIGKILL])

/-- A concrete stuck process (CPU 80%) for concrete runs of the engine. -/
def procStuck : Process :=
  { pid := 1234, name := "node".data, cpu_percent := 80 }

/-- A concrete process at CPU 30%: not stuck by the 50% heuristic, yet not
below the 10% recovered threshold either. -/
def procIdle : Process :=
  { pid := 1234, name := "node".data, cpu_percent := 30 }

/-- A script in which the process stays present at high CPU throughout:
no recovery check succeeds and every existence check sees it running. -/
def envStuck : RecoveryEnv :=
  { contLookup := some 80, sigintOk := true, runningAfterSigintErr := true,
    runningAfterWait3 := true, intLookup := some 80, termOk := true,
    runningAfterTermErr := true, runningAfterWait5 := true, killOk := true,
    killErrMsg := [], runningAfterKillErr := true }

/-- A script in which the SIGINT send fails and the process is gone at the
existence check that follows. -/
def envGoneAtSigint : RecoveryEnv :=
  { envStuck with sigintOk := false, runningAfterSigintErr := false }

/-- A script in which both fresh `check_recovered` lookups find no process
with the pid. -/
def envVanished : RecoveryEnv :=
  { envStuck with contLookup := none, intLookup := none }

/-- A first concrete process named `node` (pid 1). -/
def procA : Process := { pid := 1, name := "node".data, cpu_percent := 0 }

/-- A second concrete process named `node` (pid 2). -/
def procB : Process := { pid := 2, name := "node".data, cpu_percent := 0 }

/-! ## Character-class facts used by the parsing proofs -/

theorem not_whitespace_of_digit {c : Char} (h : c.isDigit = true) :
    c.isWhitespace = false := by
  by_contra hw
  rw [Bool.not_eq_false] at hw
  simp only [Char.isWhitespace, Bool.or_eq_true, decide_eq_true_eq] at hw
  rcases hw with ((rfl | rfl) | rfl) | rfl <;> simp [Char.isDigit] at h

theorem ne_plus_of_digit {c : Char} (h : c.isDigit = true) : c ≠ '+' := by
  intro rfl_eq
  subst rfl_eq
  exact absurd h (by decide)

theorem ne_colon_of_digit {c : Char} (h : c.isDigit = true) : c ≠ ':' := by
  intro rfl_eq
  subst rfl_eq
  exact absurd h (by decide)

/-- A list with no whitespace character is fixed by `trimStr`. -/
theorem trimStr_eq_self {s : List Char}
    (h : ∀ c ∈ s, c.isWhitespace = false) : trimStr s = s := by
  unfold trimStr
  have h1 : s.dropWhile Char.isWhitespace = s := by
    cases s with
    | nil => rfl
    | cons a t => simp [List.dropWhile_cons, h a (by simp)]
  rw [h1]
  have h2 : s.reverse.dropWhile Char.isWhitespace = s.reverse := by
    cases hs : s.reverse with
    | nil => rfl
    | cons a t =>
      have ha : a ∈ s := by
        rw [← List.mem_reverse, hs]; simp
      simp [List.dropWhile_cons, h a ha]
  rw [h2, List.reverse_reverse]

/-- A nonempty all-digit list parses to its decimal value when in bounds. -/
theorem parseUnsigned_digits {bound : Nat} {d : List Char} (hne : d ≠ [])
    (hd : d.all Char.isDigit = true) (hb : digitsVal d ≤ bound) :
    parseUnsigned bound d = some (digitsVal d) := by
  obtain ⟨c, t, rfl⟩ := List.exists_cons_of_ne_nil hne
  have hc : c.isDigit = true := by
    have := List.all_eq_true.mp hd c (by simp)
    simpa using this
  have hplus : stripPlus (c :: t) = c :: t := by
    simp [stripPlus, ne_plus_of_digit hc]
  simp [parseUnsigned, hplus, hd, hb]

/-- A list that still starts with `:` never parses as an unsigned integer. -/
theorem parseUnsigned_colon {bound : Nat} (t : List Char) :
    parseUnsigned bound (':' :: t) = none := by
  have hplus : stripPlus (':' :: t) = ':' :: t := by simp [stripPlus]
  simp [parseUnsigned, hplus]

theorem all_not_ws_of_digits {d : List Char} (hd : d.all Char.isDigit = true) :
    ∀ c ∈ d, c.isWhitespace = false := fun c hc =>
  not_whitespace_of_digit (List.all_eq_true.mp hd c hc)

theorem trimStr_colon_digits {d : List Char} (hd : d.all Char.isDigit = true) :
    trimStr (':' :: d) = ':' :: d := by
  apply trimStr_eq_self
  intro c hc
  rcases List.mem_cons.mp hc with rfl | hmem
  · decide
  · exact all_not_ws_of_digits hd c hmem

theorem trimStr_digits {d : List Char} (hd : d.all Char.isDigit = true) :
    trimStr d = d :=
  trimStr_eq_self (all_not_ws_of_digits hd)

theorem dropColons_colon_digits {d : List Char} (hne : d ≠ [])
    (hd : d.all Char.isDigit = true) :
    (':' :: d).dropWhile (· = ':') = d := by
  obtain ⟨c, t, rfl⟩ := List.exists_cons_of_ne_nil hne
  have hc : c.isDigit = true := by
    have := List.all_eq_true.mp hd c (by simp)
    simpa using this
  simp [List.dropWhile_cons, ne_colon_of_digit hc]

theorem parse_port_colon_digits {d : List Char} (hne : d ≠ [])
    (hd : d.all Char.isDigit = true) (hb : digitsVal d ≤ u16Max) :
    parse_port (':' :: d) = some (digitsVal d) := by
  simp only [parse_port]
  rw [trimStr_colon_digits hd, dropColons_colon_digits hne hd]
  exact parseUnsigned_digits hne hd hb

/-- Claim C2 (counterexample): on the trimmed input `":abc"`, whose remainder
after the `:` prefix does not parse as a `u16`, `parse_target` does fall back
and produces the `Name` variant — refuting the claim that no other variant is
produced. -/
theorem parse_target_colon_nonnumeric_cex :
    parse_target ":abc".data = TargetType.Name ":abc".data := by decide

/-- Claim C2 (amended): for every trimmed input string that starts with `:`
and whose `parse_port` parse fails, `parse_target` falls back to the `Name`
variant holding the full trimmed string (colon included); it never yields
`Pid` or `Port` for such a string. -/
theorem parse_target_colon_fallback (s : List Char) (htrim : trimStr s = s)
    (hcolon : s.head? = some ':') (hport : parse_port s = none) :
    parse_target s = TargetType.Name s := by
  obtain ⟨t, rfl⟩ : ∃ t, s = ':' :: t := by
    cases s with
    | nil => simp at hcolon
    | cons a t =>
      simp only [List.head?_cons, Option.some.injEq] at hcolon
      exact ⟨t, by rw [hcolon]⟩
  simp only [parse_target, htrim, hcolon, if_pos, hport, parseUnsigned_colon]

/-- Claim C2 (witness): the fallback theorem applied at the concrete
input `":abc"`. -/
theorem parse_target_colon_fallback_witness :
    parse_target ":abc".data = TargetType.Name ":abc".data :=
  parse_target_colon_fallback ":abc".data (by decide) (by decide) (by decide)

/-- Claim C3 (counterexample): `"+123"` is a non-empty string that is neither
`:` followed by digits nor purely decimal digits, so the claim requires
`Name "+123"`; the code accepts Rust's optional leading `+` and returns
`Pid 123`. -/
theorem parse_target_plus_sign_cex :
    parse_target "+123".data = TargetType.Pid 123 ∧
    parse_target "+123".data ≠ TargetType.Name "+123".data := by decide

/-- Claim C3 (amended): the three-way precedence of `parse_target`, with
"number" read as Rust unsigned-integer syntax: (1) `:` followed only by digits
with value ≤ 65535 yields `Port`; (2) a pure digit string with value ≤
`u32::MAX` yields `Pid`; (3) any other non-empty trimmed string yields `Name`
of that string, provided it does not itself match Rust `u32` syntax (an
optional leading `+` before the digits also parses) and, when it starts with
`:`, its colon-stripped remainder does not match Rust `u16` syntax. -/
theorem parse_target_precedence :
    (∀ d : List Char, d ≠ [] → d.all Char.isDigit = true →
      digitsVal d ≤ u16Max →
      parse_target (':' :: d) = TargetType.Port (digitsVal d)) ∧
    (∀ d : List Char, d ≠ [] → d.all Char.isDigit = true →
      digitsVal d ≤ u32Max →
      parse_target d = TargetType.Pid (digitsVal d)) ∧
    (∀ s : List Char, s ≠ [] → trimStr s = s →
      parseUnsigned u32Max s = none →
      (s.head? = some ':' → parse_port s = none) →
      parse_target s = TargetType.Name s) := by
  refine ⟨fun d hne hd hb => ?_, fun d hne hd hb => ?_, fun s hne htrim hu32 hport => ?_⟩
  · simp only [parse_target, trimStr_colon_digits hd, List.head?_cons, if_pos,
      parse_port_colon_digits hne hd hb]
  · obtain ⟨c, t, rfl⟩ := List.exists_cons_of_ne_nil hne
    have hc : c.isDigit = true := by
      have := List.all_eq_true.mp hd c (by simp)
      simpa using this
    have hcol : ¬ ((c :: t).head? = some ':') := by
      simp only [List.head?_cons, Option.some.injEq]
      exact ne_colon_of_digit hc
    simp only [parse_target, trimStr_digits hd, if_neg hcol,
      parseUnsigned_digits hne hd hb]
  · by_cases hcol : s.head? = some ':'
    · simp only [parse_target, htrim, hcol, if_pos, hport hcol, hu32]
    · simp only [parse_target, htrim, if_neg hcol, hu32]

/-- Claim C3 (witness): the precedence theorem applied at `":3000"`,
`"1234"` and `"node"`. -/
theorem parse_target_precedence_witness :
    parse_target ":3000".data = TargetType.Port 3000 ∧
    parse_target "1234".data = TargetType.Pid 1234 ∧
    parse_target "node".data = TargetType.Name "node".data :=
  ⟨parse_target_precedence.1 "3000".data (by decide) (by decide) (by decide),
   parse_target_precedence.2.1 "1234".data (by decide) (by decide) (by decide),
   parse_target_precedence.2.2 "node".data (by decide) (by decide) (by decide)
     (by intro h; exact absurd h (by decide))⟩

/-- Claim C1 (counterexample): an explicit target at CPU 30% — not below the
10% recovered threshold — still gets terminal outcome `NotStuck` with no
signal sent, because the entry check uses the 50% `is_stuck` heuristic. -/
theorem unstick_entry_cex :
    (attempt_unstick true false procIdle envStuck).1 = Outcome.NotStuck ∧
    (attempt_unstick true false procIdle envStuck).2 = [] ∧
    ¬ (procIdle.cpu_percent < 10) := by decide

/-- Claim C1 (amended): for an explicit target, the engine returns terminal
outcome `NotStuck` and sends no signal if and only if the process's CPU
percentage does not exceed the stuck threshold of 50% — the entry check reuses
the `is_stuck` heuristic, not the 10% recovered threshold. -/
theorem unstick_entry_notstuck (force : Bool) (proc : Process)
    (env : RecoveryEnv) :
    ((attempt_unstick true force proc env).1 = Outcome.NotStuck ∧
      (attempt_unstick true force proc env).2 = []) ↔
      ¬ ((50 : Rat) < proc.cpu_percent) := by
  by_cases h : (50 : Rat) < proc.cpu_percent
  · have hs : is_stuck proc = true := by simp [is_stuck, h]
    have hneg : ¬ ((true : Bool) = true ∧ ¬ is_stuck proc = true) := by
      intro hc
      exact hc.2 hs
    constructor
    · intro hcon
      exfalso
      have h1 := hcon.1
      unfold attempt_unstick at h1
      rw [if_neg hneg] at h1
      revert h1
      split_ifs <;> simp
    · intro hcon
      exact absurd h hcon
  · have hs : ¬ is_stuck proc = true := by simp [is_stuck, h]
    have hpos : (true : Bool) = true ∧ ¬ is_stuck proc = true := ⟨rfl, hs⟩
    unfold attempt_unstick
    rw [if_pos hpos]
    exact iff_of_true ⟨rfl, rfl⟩ h

set_option maxHeartbeats 1000000 in
/-- Claim C4: with the force flag unset the engine never attempts the SIGTERM
or SIGKILL escalation steps, and whenever the run gets past the entry check
but the process neither dies nor recovers through the SIGCONT and SIGINT
steps, the terminal outcome is `StillStuck` with exactly the two gentle
signals sent. -/
theorem unstick_no_force_policy (targeted : Bool) (proc : Process)
    (env : RecoveryEnv) :
    (Sig.SIGTERM ∉ (attempt_unstick targeted false proc env).2 ∧
     Sig.SIGKILL ∉ (attempt_unstick targeted false proc env).2) ∧
    (is_stuck proc = true →
     check_recovered env.contLookup = false →
     (env.sigintOk = true ∨ env.runningAfterSigintErr = true) →
     env.runningAfterWait3 = true →
     check_recovered env.intLookup = false →
     attempt_unstick targeted false proc env =
       (Outcome.StillStuck, [Sig.SIGCONT, Sig.SIGINT])) := by
  constructor
  · unfold attempt_unstick
    split_ifs <;> first | exact (‹False›).elim | simp
  · intro hs hcont hint hrun3 hintrec
    have hneg : ¬ (targeted = true ∧ ¬ is_stuck proc = true) := by
      intro hc
      exact hc.2 hs
    have hcont' : ¬ check_recovered env.contLookup = true := by simp [hcont]
    have hsig : ¬ (¬ env.sigintOk = true ∧ ¬ env.runningAfterSigintErr = true) := by
      rcases hint with h | h <;> simp [h]
    have hrun3' : ¬ (¬ env.runningAfterWait3 = true) := by simp [hrun3]
    have hintrec' : ¬ check_recovered env.intLookup = true := by simp [hintrec]
    have hforce : ¬ (false : Bool) = true := by simp
    unfold attempt_unstick
    rw [if_neg hneg, if_neg hcont', if_neg hsig, if_neg hrun3', if_neg hintrec',
      if_pos hforce]

/-- Claim C4 (witness): a process stuck at 80% CPU that stays present and hot
through the whole no-force run ends `StillStuck` after exactly SIGCONT and
SIGINT. -/
theorem unstick_no_force_policy_witness :
    (Sig.SIGTERM ∉ (attempt_unstick true false procStuck envStuck).2 ∧
     Sig.SIGKILL ∉ (attempt_unstick true false procStuck envStuck).2) ∧
    attempt_unstick true false procStuck envStuck =
      (Outcome.StillStuck, [Sig.SIGCONT, Sig.SIGINT]) :=
  ⟨(unstick_no_force_policy true procStuck envStuck).1,
   (unstick_no_force_policy true procStuck envStuck).2 (by decide) (by decide)
     (Or.inl (by decide)) (by decide) (by decide)⟩

/-- Claim C5: whenever a run reaches the SIGINT step (the entry check passed
and the SIGCONT recovery check failed) and the process disappears right after
the interrupt — either the send fails with the process gone, or the process no
longer exists after the 3-second wait — the terminal outcome is `Terminated`,
never `StillStuck` or `Failed`. -/
theorem unstick_sigint_vanish_terminated (targeted force : Bool)
    (proc : Process) (env : RecoveryEnv)
    (hentry : ¬ (targeted = true ∧ ¬ is_stuck proc = true))
    (hcont : check_recovered env.contLookup = false)
    (hvanish : (env.sigintOk = false ∧ env.runningAfterSigintErr = false) ∨
      env.runningAfterWait3 = false) :
    (attempt_unstick targeted force proc env).1 = Outcome.Terminated := by
  have hcont' : ¬ check_recovered env.contLookup = true := by simp [hcont]
  unfold attempt_unstick
  rw [if_neg hentry, if_neg hcont']
  rcases hvanish with ⟨h1, h2⟩ | h3
  · rw [if_pos ⟨by simp [h1], by simp [h2]⟩]
  · by_cases hsig : ¬ env.sigintOk = true ∧ ¬ env.runningAfterSigintErr = true
    · rw [if_pos hsig]
    · rw [if_neg hsig, if_pos (by simp [h3])]

/-- Claim C5 (witness): the theorem at a concrete script where the SIGINT send
fails and the process is already gone at the next existence check. -/
theorem unstick_sigint_vanish_terminated_witness :
    (attempt_unstick true false procStuck envGoneAtSigint).1 =
      Outcome.Terminated :=
  unstick_sigint_vanish_terminated true false procStuck envGoneAtSigint
    (by decide) (by decide) (Or.inl (by decide))

set_option maxHeartbeats 1000000 in
/-- Claim C10: `check_recovered` returns false when the fresh pid lookup finds
no process, and consequently a run whose two fresh recovery lookups both find
the pid gone can never end `Recovered`. -/
theorem check_recovered_gone (targeted force : Bool) (proc : Process)
    (env : RecoveryEnv) (hcont : env.contLookup = none)
    (hint : env.intLookup = none) :
    check_recovered none = false ∧
    (attempt_unstick targeted force proc env).1 ≠ Outcome.Recovered := by
  refine ⟨rfl, ?_⟩
  unfold attempt_unstick
  split_ifs <;> simp_all [check_recovered]

/-- Claim C10 (witness): the theorem at a concrete script whose recovery
lookups both report the process gone. -/
theorem check_recovered_gone_witness :
    check_recovered none = false ∧
    (attempt_unstick true true procStuck envVanished).1 ≠ Outcome.Recovered :=
  check_recovered_gone true true procStuck envVanished (by decide) (by decide)

/-- Claim C8: a process appears in `find_stuck timeout` exactly when some
entry of the second time-separated sample carries it with run time strictly
above the timeout and CPU strictly above 50%; the result is the filter of the
sample, and an empty result is an ordinary value, not an error. -/
theorem find_stuck_spec (timeout_secs : Nat) (sample2 : List SysSample)
    (p : Process) :
    p ∈ find_stuck timeout_secs sample2 ↔
      ∃ s ∈ sample2, s.record = p ∧ timeout_secs < s.run_time ∧
        (50 : Rat) < p.cpu_percent := by
  simp only [find_stuck, List.mem_map, List.mem_filter, Bool.and_eq_true,
    decide_eq_true_eq]
  constructor
  · rintro ⟨s, ⟨hmem, hrt, hcpu⟩, rfl⟩
    exact ⟨s, hmem, rfl, hrt, hcpu⟩
  · rintro ⟨s, hmem, rfl, hrt, hcpu⟩
    exact ⟨s, ⟨hmem, hrt, hcpu⟩, rfl⟩

/-- Claim C6: resolving a `Port` target distinguishes the two failure kinds:
with no socket on the port in the listening-socket snapshot it fails with
`PortNotFound`; with a socket found whose owning pid is absent from the
process snapshot it fails with `ProcessGone` for that pid. -/
theorem resolve_port_failure_kinds (ports : List PortInfo)
    (procs : List Process) (target : List Char) (port : Nat)
    (hparse : parse_target target = TargetType.Port port) :
    ((∀ pi ∈ ports, pi.port ≠ port) →
      resolve_target ports procs target =
        Except.error (ProcError.PortNotFound port)) ∧
    (∀ pi, find_by_port ports port = some pi →
      (∀ q ∈ procs, q.pid ≠ pi.pid) →
      resolve_target ports procs target =
        Except.error (ProcError.ProcessGone pi.pid)) := by
  constructor
  · intro hnone
    have hfind : find_by_port ports port = none := by
      simp only [find_by_port, List.find?_eq_none, decide_eq_true_eq]
      exact fun pi hpi => hnone pi hpi
    simp only [resolve_target, hparse, resolve_port, hfind]
  · intro pi hpi hgone
    have hfind : find_by_pid procs pi.pid = none := by
      simp only [find_by_pid, List.find?_eq_none, decide_eq_true_eq]
      exact fun q hq => hgone q hq
    simp only [resolve_target, hparse, resolve_port, hpi, hfind]

/-- Claim C6 (witness): the spec scenario — target `":3000"`, socket table
reporting pid 500 on port 3000, process table without pid 500 — fails with
`ProcessGone 500`. -/
theorem resolve_port_failure_kinds_witness :
    resolve_target [{ port := 3000, pid := 500 }] [] ":3000".data =
      Except.error (ProcError.ProcessGone 500) :=
  (resolve_port_failure_kinds [{ port := 3000, pid := 500 }] [] ":3000".data
      3000 (by decide)).2 { port := 3000, pid := 500 } (by decide)
    (by intro q hq; cases hq)

/-- Claim C9: `resolve_target_single` refines `resolve_target`: when the
target resolves to exactly one process it returns that process, and whenever
the target resolves to more than one process it fails with `InvalidInput`. -/
theorem resolve_target_single_spec (ports : List PortInfo)
    (procs : List Process) (target : List Char) :
    (∀ p, resolve_target ports procs target = Except.ok [p] →
      resolve_target_single ports procs target = Except.ok p) ∧
    (∀ ps, resolve_target ports procs target = Except.ok ps → 1 < ps.length →
      resolve_target_single ports procs target =
        Except.error (ProcError.InvalidInput (tooManyMsg target ps.length))) := by
  constructor
  · intro p hok
    unfold resolve_target_single
    rw [hok]
    rfl
  · intro ps hok hlen
    match ps, hlen with
    | p1 :: p2 :: rest, _ =>
      unfold resolve_target_single
      rw [hok]
      rfl

/-- Claim C9 (witness): with two processes named `node` in the snapshot, the
target `"node"` resolves to both, and `resolve_target_single` rejects it with
`InvalidInput`. -/
theorem resolve_target_single_spec_witness :
    resolve_target [] [procA, procB] "node".data = Except.ok [procA, procB] ∧
    resolve_target_single [] [procA, procB] "node".data =
      Except.error (ProcError.InvalidInput (tooManyMsg "node".data 2)) :=
  ⟨by rfl,
   (resolve_target_single_spec [] [procA, procB] "node".data).2
     [procA, procB] (by rfl) (by decide)⟩

/-- Each run of the inner insertion loop appends exactly the block of
processes whose pids were new, keeps `seen` equal to the pids appended so far,
covers every inserted process's pid, and preserves `Nodup` of `seen`. -/
theorem insertNew_spec :
    ∀ (ps found : List Process) (seen : List Nat),
      ∃ r : List Process,
        insertNew ps found seen = (found ++ r, seen ++ r.map Process.pid) ∧
        (∀ p ∈ ps, p.pid ∈ seen ++ r.map Process.pid) ∧
        (seen.Nodup → (seen ++ r.map Process.pid).Nodup) := by
  intro ps
  induction ps with
  | nil =>
    intro found seen
    exact ⟨[], by simp [insertNew], by simp, by simp⟩
  | cons p ps ih =>
    intro found seen
    by_cases hmem : p.pid ∈ seen
    · obtain ⟨r, heq, hcov, hnd⟩ := ih found seen
      refine ⟨r, by simp [insertNew, hmem, heq], ?_, hnd⟩
      intro q hq
      rcases List.mem_cons.mp hq with h | h
      · rw [h]
        exact List.mem_append_left _ hmem
      · exact hcov q h
    · obtain ⟨r, heq, hcov, hnd⟩ := ih (found ++ [p]) (seen ++ [p.pid])
      refine ⟨p :: r, ?_, ?_, ?_⟩
      · simp only [insertNew, if_neg hmem, heq]
        simp [List.append_assoc]
      · intro q hq
        rcases List.mem_cons.mp hq with h | h
        · rw [h]
          simp
        · have := hcov q h
          simpa [List.append_assoc] using this
      · intro hs
        have hsingle : (seen ++ [p.pid]).Nodup := by
          simp [List.nodup_append, hs, hmem]
        have := hnd hsingle
        simpa [List.append_assoc] using this

/-- The outer loop of `resolve_targets`, fully characterised: assuming the
`seen` set is exactly the pids of `found` (no duplicates), the final process
list has pairwise distinct pids, extends `found`, the failed-target list
extends `notFound` by exactly the targets on which `resolve_target` fails in
order, and every process of every successful resolution is represented in the
final list by pid. -/
theorem resolveLoop_spec (ports : List PortInfo) (procs : List Process) :
    ∀ (ts : List (List Char)) (found : List Process) (seen : List Nat)
      (nf : List (List Char)),
      seen = found.map Process.pid → seen.Nodup →
      (((resolveLoop ports procs ts found seen nf).1.map Process.pid).Nodup ∧
       (∃ rest, (resolveLoop ports procs ts found seen nf).1 = found ++ rest) ∧
       (resolveLoop ports procs ts found seen nf).2 =
         nf ++ ts.filter (resolveFails ports procs) ∧
       (∀ t ∈ ts, ∀ ps, resolve_target ports procs t = Except.ok ps →
         ∀ p ∈ ps, ∃ q ∈ (resolveLoop ports procs ts found seen nf).1,
           q.pid = p.pid)) := by
  intro ts
  induction ts with
  | nil =>
    intro found seen nf hinv hnd
    refine ⟨?_, ⟨[], by simp [resolveLoop]⟩, by simp [resolveLoop], ?_⟩
    · rw [resolveLoop, ← hinv]
      exact hnd
    · intro t ht
      cases ht
  | cons t ts ih =>
    intro found seen nf hinv hnd
    cases hres : resolve_target ports procs t with
    | error e =>
      have hfail : resolveFails ports procs t = true := by
        simp [resolveFails, hres]
      have hstep : resolveLoop ports procs (t :: ts) found seen nf =
          resolveLoop ports procs ts found seen (nf ++ [t]) := by
        simp [resolveLoop, hres]
      obtain ⟨hnodup, hext, hnf, hcov⟩ := ih found seen (nf ++ [t]) hinv hnd
      rw [hstep]
      refine ⟨hnodup, hext, ?_, ?_⟩
      · rw [hnf, List.filter_cons_of_pos hfail]
        simp
      · intro t' ht' ps hok p hp
        rcases List.mem_cons.mp ht' with h | h
        · rw [h] at hok
          rw [hok] at hres
          cases hres
        · exact hcov t' h ps hok p hp
    | ok ps0 =>
      have hfail : resolveFails ports procs t = false := by
        simp [resolveFails, hres]
      obtain ⟨r, heq, hcov0, hnd0⟩ := insertNew_spec ps0 found seen
      have hstep : resolveLoop ports procs (t :: ts) found seen nf =
          resolveLoop ports procs ts (found ++ r)
            (seen ++ r.map Process.pid) nf := by
        simp [resolveLoop, hres, heq]
      have hinv' : seen ++ r.map Process.pid = (found ++ r).map Process.pid := by
        rw [List.map_append, hinv]
      have hnd' : (seen ++ r.map Process.pid).Nodup := hnd0 hnd
      obtain ⟨hnodup, hext, hnf, hcov⟩ :=
        ih (found ++ r) (seen ++ r.map Process.pid) nf hinv' hnd'
      rw [hstep]
      refine ⟨hnodup, ?_, ?_, ?_⟩
      · obtain ⟨rest, hrest⟩ := hext
        exact ⟨r ++ rest, by rw [hrest, List.append_assoc]⟩
      · rw [hnf, List.filter_cons_of_neg (by simp [hfail])]
      · intro t' ht' ps hok p hp
        rcases List.mem_cons.mp ht' with h | h
        · rw [h] at hok
          rw [hok] at hres
          injection hres with hps
          subst hps
          have hpid : p.pid ∈ (found ++ r).map Process.pid := by
            rw [← hinv']
            exact hcov0 p hp
          obtain ⟨q, hq, hqpid⟩ := List.mem_map.mp hpid
          obtain ⟨rest, hrest⟩ := hext
          exact ⟨q, by rw [hrest]; exact List.mem_append_left _ hq, hqpid⟩
        · exact hcov t' h ps hok p hp

/-- Claim C7: `resolve_targets` resolves each target independently: the output
process list carries pairwise distinct pids (deduplication by pid), the
not-found list is exactly the subsequence of targets on which `resolve_target`
fails (so one failing target never prevents the others from resolving), and
every process of every successful per-target resolution is represented in the
output by its pid. -/
theorem resolve_targets_spec (ports : List PortInfo) (procs : List Process)
    (targets : List (List Char)) :
    ((resolve_targets ports procs targets).1.map Process.pid).Nodup ∧
    (resolve_targets ports procs targets).2 =
      targets.filter (resolveFails ports procs) ∧
    (∀ t ∈ targets, ∀ ps, resolve_target ports procs t = Except.ok ps →
      ∀ p ∈ ps, ∃ q ∈ (resolve_targets ports procs targets).1,
        q.pid = p.pid) := by
  obtain ⟨hnodup, _, hnf, hcov⟩ :=
    resolveLoop_spec ports procs targets [] [] [] (by simp) (by simp)
  exact ⟨hnodup, by simpa using hnf, hcov⟩

/-- Claim C7 (witness): with processes `procA`, `procB` both named `node`, the
batch `["node", "2", ":9"]` resolves `node` to both pids and `2` to pid 2
again, dedupes to `[procA, procB]`, and collects exactly the port target
`":9"` (no listener) as not found; pid 2 is represented in the output. -/
theorem resolve_targets_spec_witness :
    (resolve_targets [] [procA, procB]
      ["node".data, "2".data, ":9".data]).1 = [procA, procB] ∧
    (resolve_targets [] [procA, procB]
      ["node".data, "2".data, ":9".data]).2 = [":9".data] ∧
    ∃ q ∈ (resolve_targets [] [procA, procB]
      ["node".data, "2".data, ":9".data]).1, q.pid = procB.pid :=
  ⟨by rfl, by rfl,
   (resolve_targets_spec [] [procA, procB]
       ["node".data, "2".data, ":9".data]).2.2
     "2".data (by simp) [procB] (by rfl) procB (by simp)⟩

end Proc
